import Mathlib

/-!
Verification of the `belgie` view runtime bridge
(`src/packages/view/src/lib.rs`).

The Rust source spawns one dedicated worker thread owning a single
`JsRuntime`; callers enqueue `RuntimeCommand::Execute` values on an
unbounded mpsc channel together with a oneshot reply sender, and the
worker processes commands one at a time, classifying each script
execution into a `Success`/`Error` response.

Shallow embedding choices:
* The JS engine (`js_runtime.execute_script`) is abstracted as a
  stateful function `exec : σ → String → σ × Except String String`:
  the `Except.ok` payload stands for the `Global<Value>` result (which
  the worker discards) and the `Except.error` payload is the `Display`
  text of the `deno_core` error.
* The mpsc command channel plus single-consumer loop is modelled as a
  fold over the FIFO list of accepted commands.
* The oneshot reply channel is modelled by a reply id plus a predicate
  saying whether the receiving half is still alive; `send` returns the
  value back on a dropped receiver, exactly as `tokio::sync::oneshot`.
* `OnceLock::get_or_init` is modelled as a transition on a boolean
  process-wide flag; concurrent callers are modelled by folding an
  arbitrary linearization of their calls.
-/

/-- Mirrors `enum RuntimeCommand`: the single `Execute` case carrying the
script text and (abstractly, by id) the oneshot reply sender. -/
inductive RuntimeCommand where
  | execute (code : String) (replyId : Nat)
deriving DecidableEq, Repr

/-- The reply id carried by a command (stands for its paired oneshot sender). -/
def RuntimeCommand.replyId : RuntimeCommand → Nat
  | RuntimeCommand.execute _ rid => rid

/-- The script text carried by a command. -/
def RuntimeCommand.code : RuntimeCommand → String
  | RuntimeCommand.execute c _ => c

/-- Mirrors `enum RuntimeResponse { Success(String), Error(String) }`. -/
inductive RuntimeResponse where
  | success (s : String)
  | error (s : String)
deriving DecidableEq, Repr

/-- Mirrors the `match result` in the worker loop (lib.rs lines 66-72):
`Ok(_)` becomes `Success("executed".to_string())` and `Err(js_error)`
becomes `Error(format!("JavaScript Error: \x7b\x7d", js_error))`. -/
def classify (result : Except String String) : RuntimeResponse :=
  match result with
  | Except.ok _ => RuntimeResponse.success "executed"
  | Except.error jsError => RuntimeResponse.error ("JavaScript Error: " ++ jsError)

/-- Mirrors `tokio::sync::oneshot::Sender::send`: succeeds when the
receiving half is still alive, otherwise returns the value back as an
error; it never panics. The worker discards this result
(`let _ = response_tx.send(response)`, lib.rs line 75). -/
def oneshotSend (receiverAlive : Bool) (resp : RuntimeResponse) :
    Except RuntimeResponse Unit :=
  if receiverAlive then Except.ok () else Except.error resp

/-- Whether a oneshot send reached a live receiver. -/
def sendDelivered (r : Except RuntimeResponse Unit) : Bool :=
  match r with
  | Except.ok _ => true
  | Except.error _ => false

/-- One send attempt the worker performed: on which reply channel, with
which response, and whether the receiver was still there to get it. -/
structure SendRecord where
  replyId : Nat
  resp : RuntimeResponse
  delivered : Bool
deriving DecidableEq, Repr

/-- Mirrors the worker loop (lib.rs lines 58-78): dequeue commands in
FIFO order; for each, run the script against the owned engine state,
classify the outcome, attempt exactly one oneshot send, ignore the send
result, and continue with the next command. `alive rid` says whether
reply channel `rid` still has its receiver. Returns the final engine
state and the FIFO trace of send attempts. -/
def workerLoop {σ : Type} (exec : σ → String → σ × Except String String)
    (alive : Nat → Bool) : σ → List RuntimeCommand → σ × List SendRecord
  | st, [] => (st, [])
  | st, RuntimeCommand.execute code rid :: rest =>
      let step := exec st code
      let resp := classify step.2
      let record : SendRecord :=
        ⟨rid, resp, sendDelivered (oneshotSend (alive rid) resp)⟩
      let tail := workerLoop exec alive step.1 rest
      (tail.1, record :: tail.2)

/-- Lifecycle events of the worker thread and of `Runtime::new`. -/
inductive WorkerEvent where
  | platformReady
  | threadSpawned
  | engineCreated
  | processed (replyId : Nat) (resp : RuntimeResponse)
  | engineDropped
deriving DecidableEq, Repr

/-- Whether an event is the processing of a command. -/
def isProcessedEvent : WorkerEvent → Bool
  | WorkerEvent.processed _ _ => true
  | _ => false

/-- The spawned worker thread's whole life (lib.rs lines 46-80): build
the engine, process every command the channel delivers before closure
(tokio's `recv` returns `None` only once all senders are dropped and the
queue is drained), then leave the `block_on` scope, dropping the engine. -/
def workerRun {σ : Type} (exec : σ → String → σ × Except String String)
    (alive : Nat → Bool) (st0 : σ) (cmds : List RuntimeCommand) :
    List WorkerEvent :=
  WorkerEvent.engineCreated ::
    ((workerLoop exec alive st0 cmds).2.map
      (fun r => WorkerEvent.processed r.replyId r.resp)
      ++ [WorkerEvent.engineDropped])

/-- Mirrors `ensure_v8_platform` (lib.rs lines 11-15): `get_or_init` on
the process-wide `OnceLock` runs the platform initialization exactly
when the flag is still unset. Returns the new flag plus whether the
initialization body actually ran this time. -/
def ensure_v8_platform (inited : Bool) : Bool × Bool :=
  if inited then (true, false) else (true, true)

/-- A linearization of `n` concurrent `ensure_v8_platform` calls (the
`OnceLock` serializes racing initializers): final flag and how many of
the `n` calls actually ran the initialization body. -/
def ensureCalls : Bool → Nat → Bool × Nat
  | inited, 0 => (inited, 0)
  | inited, n + 1 =>
      let step := ensure_v8_platform inited
      let rest := ensureCalls step.1 n
      (rest.1, (if step.2 then 1 else 0) + rest.2)

/-- Event trace of `Runtime::new` (lib.rs lines 39-83): the platform is
ensured first, then the worker thread is spawned, and only inside that
thread is the engine constructed and the loop run. -/
def runtimeNewEvents {σ : Type} (exec : σ → String → σ × Except String String)
    (alive : Nat → Bool) (st0 : σ) (cmds : List RuntimeCommand) :
    List WorkerEvent :=
  WorkerEvent.platformReady :: WorkerEvent.threadSpawned ::
    workerRun exec alive st0 cmds

/-- Steps the caller side of `Runtime.__call__` performs. -/
inductive CallStep where
  | sendCommand
  | awaitReply
deriving DecidableEq, Repr

/-- Mirrors the async body of `Runtime.__call__` (lib.rs lines 85-108):
`sendOk` is whether `command_tx.send` succeeded (the worker loop is
still receiving); `reply` is what awaiting `response_rx` yields, `none`
meaning the sender was dropped without a response. Returns the steps the
caller actually took together with the `PyResult` outcome (`Except.error`
standing for a raised `PyRuntimeError` with that message). -/
def runtimeCall (sendOk : Bool) (reply : Option RuntimeResponse) :
    List CallStep × Except String String :=
  if sendOk then
    match reply with
    | none =>
        ([CallStep.sendCommand, CallStep.awaitReply],
         Except.error "Failed to receive response from runtime")
    | some (RuntimeResponse.success s) =>
        ([CallStep.sendCommand, CallStep.awaitReply], Except.ok s)
    | some (RuntimeResponse.error e) =>
        ([CallStep.sendCommand, CallStep.awaitReply], Except.error e)
  else ([CallStep.sendCommand], Except.error "Runtime thread has terminated")

/-- One call round trip on a live worker: the worker executes the script
against its state, classifies the outcome, sends the response, and the
caller receives it. Returns the new engine state and the caller's view. -/
def executeRoundTrip {σ : Type} (exec : σ → String → σ × Except String String)
    (st : σ) (code : String) : σ × (List CallStep × Except String String) :=
  let step := exec st code
  (step.1, runtimeCall true (some (classify step.2)))

/-- How construction inside the spawned worker thread can go (lib.rs
lines 46-55): the tokio current-thread runtime build can fail (the
`expect` then panics on the worker thread) or `JsRuntime::new` can panic;
either panic unwinds only the worker thread. -/
inductive WorkerInit where
  | ok
  | tokioRuntimeFail
  | engineCtorFail
deriving DecidableEq, Repr

/-- What the caller of `Runtime::new` observes at construction time.
`surfacedError` is an error reported to the caller by `new` itself;
`workerAlive` is whether the spawned worker reached its receive loop. -/
structure RuntimeNewResult where
  surfacedError : Option String
  workerAlive : Bool
deriving DecidableEq, Repr

/-- Mirrors `Runtime::new` (lib.rs lines 39-83): `fn new() -> Self` has
no error channel; it ensures the platform, spawns the worker thread and
returns the handle unconditionally. A construction failure inside the
spawned closure kills only the worker thread, so `new` itself reports
nothing (`surfacedError = none`) and the handle's channel is simply
closed (`workerAlive = false`). -/
def runtimeNew (init : WorkerInit) : RuntimeNewResult :=
  { surfacedError := none,
    workerAlive := match init with
      | WorkerInit.ok => true
      | WorkerInit.tokioRuntimeFail => false
      | WorkerInit.engineCtorFail => false }

/-- Substring containment: `sub` occurs contiguously inside `s`. -/
def containsStr (s sub : String) : Prop :=
  ∃ a b, s = a ++ sub ++ b

/-- Literal-leading-text containment: `s` begins with `p`. -/
def startsWithStr (s p : String) : Prop :=
  ∃ rest, s = p ++ rest

/-- A concrete demonstration engine used by witnesses: stateless,
succeeds on the script "good" and throws with message "boom" otherwise. -/
def demoExec : Unit → String → Unit × Except String String :=
  fun st c => (st, if c = "good" then Except.ok "2" else Except.error "boom")

/-- A reply-liveness predicate with every receiver still alive. -/
def allAlive : Nat → Bool := fun _ => true

/-- Helper: the worker issues one send record per accepted command. -/
theorem workerLoop_length {σ : Type} (exec : σ → String → σ × Except String String)
    (alive : Nat → Bool) (st : σ) (cmds : List RuntimeCommand) :
    (workerLoop exec alive st cmds).2.length = cmds.length := by
  induction cmds generalizing st with
  | nil => rfl
  | cons c rest ih =>
      cases c with
      | execute code rid => simp [workerLoop, ih]

/-- Helper: the send records target the commands' reply channels in order. -/
theorem workerLoop_replyIds {σ : Type} (exec : σ → String → σ × Except String String)
    (alive : Nat → Bool) (st : σ) (cmds : List RuntimeCommand) :
    (workerLoop exec alive st cmds).2.map SendRecord.replyId
      = cmds.map RuntimeCommand.replyId := by
  induction cmds generalizing st with
  | nil => rfl
  | cons c rest ih =>
      cases c with
      | execute code rid => simp [workerLoop, ih, RuntimeCommand.replyId]

/-- Helper: dropped reply receivers change neither the responses computed
nor the final engine state — the ignored send result is inert. -/
theorem workerLoop_alive_irrelevant {σ : Type}
    (exec : σ → String → σ × Except String String)
    (alive alive2 : Nat → Bool) (st : σ) (cmds : List RuntimeCommand) :
    (workerLoop exec alive st cmds).1 = (workerLoop exec alive2 st cmds).1
    ∧ (workerLoop exec alive st cmds).2.map (fun r => (r.replyId, r.resp))
        = (workerLoop exec alive2 st cmds).2.map (fun r => (r.replyId, r.resp)) := by
  induction cmds generalizing st with
  | nil => exact ⟨rfl, rfl⟩
  | cons c rest ih =>
      cases c with
      | execute code rid =>
          refine ⟨(ih (exec st code).1).1, ?_⟩
          simp [workerLoop, (ih (exec st code).1).2]

/-- Helper: the worker loop is a sequential fold, so processing a
concatenation is processing the first part, then the second from the
state the first part left. -/
theorem workerLoop_append {σ : Type} (exec : σ → String → σ × Except String String)
    (alive : Nat → Bool) (st : σ) (xs ys : List RuntimeCommand) :
    workerLoop exec alive st (xs ++ ys)
      = ((workerLoop exec alive (workerLoop exec alive st xs).1 ys).1,
         (workerLoop exec alive st xs).2
           ++ (workerLoop exec alive (workerLoop exec alive st xs).1 ys).2) := by
  induction xs generalizing st with
  | nil => simp [workerLoop]
  | cons c rest ih =>
      cases c with
      | execute code rid => simp [workerLoop, ih]

/-- Helper: a once-initialized platform flag never re-runs the body. -/
theorem ensureCalls_inited (n : Nat) : ensureCalls true n = (true, 0) := by
  induction n with
  | zero => rfl
  | succ n ih => simp [ensureCalls, ensure_v8_platform, ih]

/-- C1: a script that completes normally yields a Success response (the
caller's call succeeds), and a script that throws with engine message M
yields an Error response whose diagnostic text, delivered as the call's
failure text, contains M. -/
theorem execute_outcome_classification {σ : Type}
    (exec : σ → String → σ × Except String String) (st : σ) (code : String) :
    (∀ v, (exec st code).2 = Except.ok v →
      (executeRoundTrip exec st code).2.2 = Except.ok "executed")
    ∧ (∀ m, (exec st code).2 = Except.error m →
      (executeRoundTrip exec st code).2.2 = Except.error ("JavaScript Error: " ++ m)
      ∧ containsStr ("JavaScript Error: " ++ m) m) := by
  constructor
  · intro v h
    simp [executeRoundTrip, h, classify, runtimeCall]
  · intro m h
    refine ⟨?_, "JavaScript Error: ", "", by simp⟩
    simp [executeRoundTrip, h, classify, runtimeCall]

/-- C1 witness: on the demonstration engine, the script "good" round
trips to `Ok "executed"` and the script "bad" (which throws "boom")
round trips to a failure whose text contains "boom". -/
theorem execute_outcome_classification_witness :
    (executeRoundTrip demoExec () "good").2.2 = Except.ok "executed"
    ∧ (executeRoundTrip demoExec () "bad").2.2
        = Except.error ("JavaScript Error: " ++ "boom")
    ∧ containsStr ("JavaScript Error: " ++ "boom") "boom" :=
  ⟨(execute_outcome_classification demoExec () "good").1 "2" (by simp [demoExec]),
   ((execute_outcome_classification demoExec () "bad").2 "boom" (by simp [demoExec])).1,
   ((execute_outcome_classification demoExec () "bad").2 "boom" (by simp [demoExec])).2⟩

/-- C2: the worker attempts exactly one send per accepted command, on
that command's own reply channel, and an abandoned receiver is inert:
the responses computed and the engine state are identical whatever the
liveness of the receivers, so a failed send is a silent no-op, never a
worker fault. -/
theorem worker_sends_exactly_one_response {σ : Type}
    (exec : σ → String → σ × Except String String)
    (alive alive2 : Nat → Bool) (st : σ) (cmds : List RuntimeCommand) :
    (workerLoop exec alive st cmds).2.length = cmds.length
    ∧ (workerLoop exec alive st cmds).2.map SendRecord.replyId
        = cmds.map RuntimeCommand.replyId
    ∧ (workerLoop exec alive st cmds).2.map (fun r => (r.replyId, r.resp))
        = (workerLoop exec alive2 st cmds).2.map (fun r => (r.replyId, r.resp))
    ∧ (workerLoop exec alive st cmds).1 = (workerLoop exec alive2 st cmds).1 :=
  ⟨workerLoop_length exec alive st cmds,
   workerLoop_replyIds exec alive st cmds,
   (workerLoop_alive_irrelevant exec alive alive2 st cmds).2,
   (workerLoop_alive_irrelevant exec alive alive2 st cmds).1⟩

/-- C3: the worker executes commands in strict FIFO enqueue order, one
at a time to completion: processing `xs ++ ys` is exactly processing
`xs`, then `ys` from the engine state `xs` left behind (no reordering,
no interleaving), and the send trace lists the commands' reply channels
in enqueue order. -/
theorem worker_fifo_in_order {σ : Type}
    (exec : σ → String → σ × Except String String)
    (alive : Nat → Bool) (st : σ) (xs ys : List RuntimeCommand) :
    workerLoop exec alive st (xs ++ ys)
      = ((workerLoop exec alive (workerLoop exec alive st xs).1 ys).1,
         (workerLoop exec alive st xs).2
           ++ (workerLoop exec alive (workerLoop exec alive st xs).1 ys).2)
    ∧ (workerLoop exec alive st (xs ++ ys)).2.map SendRecord.replyId
        = (xs ++ ys).map RuntimeCommand.replyId :=
  ⟨workerLoop_append exec alive st xs ys,
   workerLoop_replyIds exec alive st (xs ++ ys)⟩

/-- C4: when the command send fails because the worker has terminated,
the call fails at once with the runtime-terminated message and the
caller never reaches the await step — no suspension occurs. -/
theorem call_fails_fast_when_terminated (sendOk : Bool)
    (reply : Option RuntimeResponse) (h : sendOk = false) :
    (runtimeCall sendOk reply).2 = Except.error "Runtime thread has terminated"
    ∧ (runtimeCall sendOk reply).1 = [CallStep.sendCommand] := by
  subst h
  exact ⟨rfl, rfl⟩

/-- C4 witness: a call against a terminated worker. -/
theorem call_fails_fast_when_terminated_witness :
    (runtimeCall false none).2 = Except.error "Runtime thread has terminated"
    ∧ (runtimeCall false none).1 = [CallStep.sendCommand] :=
  call_fails_fast_when_terminated false none rfl

/-- C5: when the reply channel closes before a response arrives, the
call fails with the no-response message, which is distinct from the
runtime-terminated message; the caller performed exactly one send and
one await — the failure is reported, not dropped, and never retried. -/
theorem call_no_response_distinct_error (sendOk : Bool)
    (reply : Option RuntimeResponse) (hs : sendOk = true) (hr : reply = none) :
    (runtimeCall sendOk reply).2
      = Except.error "Failed to receive response from runtime"
    ∧ "Failed to receive response from runtime" ≠ "Runtime thread has terminated"
    ∧ (runtimeCall sendOk reply).1 = [CallStep.sendCommand, CallStep.awaitReply] := by
  subst hs; subst hr
  exact ⟨rfl, by decide, rfl⟩

/-- C5 witness: a call whose reply channel died without a response. -/
theorem call_no_response_distinct_error_witness :
    (runtimeCall true none).2
      = Except.error "Failed to receive response from runtime"
    ∧ "Failed to receive response from runtime" ≠ "Runtime thread has terminated"
    ∧ (runtimeCall true none).1 = [CallStep.sendCommand, CallStep.awaitReply] :=
  call_no_response_distinct_error true none rfl rfl

/-- C6: a non-throwing script always produces the fixed marker
`Success("executed")`, independent of whatever value the engine
returned, so no script value ever reaches the caller: the call resolves
to the marker alone. -/
theorem success_fixed_marker (v w : String) :
    classify (Except.ok v) = RuntimeResponse.success "executed"
    ∧ classify (Except.ok v) = classify (Except.ok w)
    ∧ (runtimeCall true (some (classify (Except.ok v)))).2 = Except.ok "executed" :=
  ⟨rfl, rfl, rfl⟩

/-- C7: any positive number of (linearized concurrent) calls to the
platform initializer runs the setup body exactly once and leaves the
flag set; and in the `Runtime::new` event trace the platform is ready at
the very first position, strictly before every engine construction by
the worker thread. -/
theorem platform_init_once_before_engine {σ : Type}
    (exec : σ → String → σ × Except String String) (alive : Nat → Bool)
    (st0 : σ) (cmds : List RuntimeCommand) (n j : Nat) (hn : 1 ≤ n)
    (hj : (runtimeNewEvents exec alive st0 cmds).get? j
            = some WorkerEvent.engineCreated) :
    ensureCalls false n = (true, 1)
    ∧ (runtimeNewEvents exec alive st0 cmds).get? 0
        = some WorkerEvent.platformReady
    ∧ 0 < j := by
  refine ⟨?_, rfl, ?_⟩
  · cases n with
    | zero => omega
    | succ n => simp [ensureCalls, ensure_v8_platform, ensureCalls_inited]
  · cases j with
    | zero => simp [runtimeNewEvents] at hj
    | succ j => omega

/-- C7 witness: one construction with no commands; the engine-creation
event sits at index 2, after the platform-ready event at index 0. -/
theorem platform_init_once_before_engine_witness :
    ensureCalls false 1 = (true, 1)
    ∧ (runtimeNewEvents demoExec allAlive () []).get? 0
        = some WorkerEvent.platformReady
    ∧ 0 < 2 :=
  platform_init_once_before_engine demoExec allAlive () [] 1 2 (by decide) rfl

/-- C8: the worker's whole run is engine creation, then exactly one
processing event per accepted command (all of them command-processing
events), then — last, with nothing after it — the drop of the engine
once channel closure is observed. -/
theorem worker_drains_then_drops_engine {σ : Type}
    (exec : σ → String → σ × Except String String) (alive : Nat → Bool)
    (st0 : σ) (cmds : List RuntimeCommand) :
    ∃ procs : List WorkerEvent,
      workerRun exec alive st0 cmds
        = WorkerEvent.engineCreated :: (procs ++ [WorkerEvent.engineDropped])
      ∧ procs.length = cmds.length
      ∧ procs.all isProcessedEvent = true := by
  refine ⟨(workerLoop exec alive st0 cmds).2.map
    (fun r => WorkerEvent.processed r.replyId r.resp), ?_, ?_, ?_⟩
  · rfl
  · simp [workerLoop_length]
  · simp [List.all_eq_true, isProcessedEvent]

/-- C9 counterexample: an engine-construction failure inside the spawned
thread is not surfaced at Bridge construction time — `Runtime::new`
still returns a handle reporting no error. -/
theorem ctor_failure_not_surfaced_counterexample :
    WorkerInit.engineCtorFail ≠ WorkerInit.ok
    ∧ (runtimeNew WorkerInit.engineCtorFail).surfacedError = none :=
  ⟨by decide, rfl⟩

/-- C9 amended: a construction failure inside the spawned worker thread
is fatal to the worker and never retried, but it is not surfaced at
Bridge construction: `new` reports nothing and returns a handle whose
worker is dead, and every subsequent call fails with the
runtime-terminated condition (the worker is never respawned). -/
theorem ctor_failure_fatal_deferred_surfacing (init : WorkerInit)
    (reply : Option RuntimeResponse) (h : init ≠ WorkerInit.ok) :
    (runtimeNew init).surfacedError = none
    ∧ (runtimeNew init).workerAlive = false
    ∧ (runtimeCall (runtimeNew init).workerAlive reply).2
        = Except.error "Runtime thread has terminated" := by
  cases init with
  | ok => exact absurd rfl h
  | tokioRuntimeFail => exact ⟨rfl, rfl, rfl⟩
  | engineCtorFail => exact ⟨rfl, rfl, rfl⟩

/-- C9 amended witness: a failed engine construction leaves a handle
whose calls all fail with the runtime-terminated condition. -/
theorem ctor_failure_fatal_deferred_surfacing_witness :
    (runtimeNew WorkerInit.engineCtorFail).surfacedError = none
    ∧ (runtimeNew WorkerInit.engineCtorFail).workerAlive = false
    ∧ (runtimeCall (runtimeNew WorkerInit.engineCtorFail).workerAlive none).2
        = Except.error "Runtime thread has terminated" :=
  ctor_failure_fatal_deferred_surfacing WorkerInit.engineCtorFail none (by decide)

/-- C10: a failed script execution delivers to the caller exactly the
text `"JavaScript Error: "` followed by the engine's own formatted error
text — in particular the diagnostic begins with that literal text. -/
theorem js_error_diagnostic_format {σ : Type}
    (exec : σ → String → σ × Except String String) (st : σ) (code m : String)
    (h : (exec st code).2 = Except.error m) :
    (executeRoundTrip exec st code).2.2
      = Except.error ("JavaScript Error: " ++ m)
    ∧ startsWithStr ("JavaScript Error: " ++ m) "JavaScript Error: " := by
  refine ⟨?_, m, rfl⟩
  simp [executeRoundTrip, h, classify, runtimeCall]

/-- C10 witness: the demonstration engine throwing "boom" yields the
diagnostic "JavaScript Error: boom". -/
theorem js_error_diagnostic_format_witness :
    (executeRoundTrip demoExec () "bad").2.2
      = Except.error ("JavaScript Error: " ++ "boom")
    ∧ startsWithStr ("JavaScript Error: " ++ "boom") "JavaScript Error: " :=
  js_error_diagnostic_format demoExec () "bad" "boom" (by simp [demoExec])
